import Mathlib

/-
Verification of the Pico button-counter firmware (src/main.py).

The state of the `ButtonCounter` class is embedded as the structure
`Pico.CounterState`; each method that the claims touch is translated to a
pure Lean function.  MicroPython's `time.ticks_ms` timestamps are modelled
as `Nat` values supplied per call, `time.ticks_diff(a, b)` as the integer
difference `ticksDiff a b`.  Randomness (`random.randint`, `random.choice`,
random particle spawns, the remote taunt fetch) is modelled by an explicit
oracle `Pico.Rand` whose fields hold the outcomes the library calls would
draw.  Side effects on the world (animations drawn on the OLED, writes to
the persisted high-score file) are reported in a `Pico.Effects` record
returned next to the new state.
-/

namespace Pico

/-- Debounce window in milliseconds (`self.debounce_ms = 200` in `__init__`). -/
def debounce_ms : Nat := 200

/-- Embeds `time.ticks_diff(a, b)`: signed difference of two tick counts. -/
def ticksDiff (a b : Nat) : Int := (a : Int) - (b : Int)

/-- The module-level `TAUNTS` list of src/main.py, verbatim. -/
def TAUNTS : List String :=
  [ "That\x27s it?",
    "My grandma clicks faster",
    "Weak.",
    "Keep going, champ",
    "Impressive... not",
    "Is that all you got?",
    "Pathetic clicking",
    "Try harder",
    "Yawn...",
    "Are you even trying?",
    "Click like you mean it",
    "Amateur hour",
    "Sad.",
    "More! MORE!",
    "You call that clicking?",
    "I\x27ve seen better",
    "Really?",
    "Oh wow, a click",
    "Groundbreaking stuff",
    "Revolutionary clicking",
    "History in the making",
    "Alert the press",
    "Legendary...",
    "Peak performance",
    "Your finger tired yet?",
    "Slow clap",
    "Do you even lift?",
    "My cat clicks better",
    "Zzzzz...",
    "Wake me when done",
    "Still going?",
    "Bless your heart",
    "A for effort",
    "Participation trophy",
    "So brave",
    "Much click. Wow.",
    "Error 404: skill",
    "Have you tried harder?",
    "Bold strategy",
    "Fascinating...",
    "Cool story bro",
    "K.",
    "Neat.",
    "Riveting stuff",
    "Edge of my seat",
    "Thrilling",
    "Stop. Don\x27t. Come back.",
    "Oh no... anyway",
    "Press F to pay respects",
    "git gud",
    ":P",
    ";P",
    "-_-",
    "._.",
    ">_<",
    "^_^",
    "o_O",
    "T_T",
    "(._. )",
    "( -_-)",
    "\\(o_o)/",
    "(-_-)zzZ",
    "*slow clap*",
    "...really?",
    "Un-BUTTON-lievable",
    "This is pressing",
    "Button your lip",
    "Push comes to shove",
    "You\x27re on a roll",
    "Click bait",
    "Pushing my buttons",
    "That was riveting",
    "Key performance",
    "Tactile genius",
    "Finger lickin good",
    "Digit-al art",
    "Count on it",
    "Number one fan",
    "Sum-thing else" ]

/-- The module-level `RESET_TAUNTS` list of src/main.py, verbatim. -/
def RESET_TAUNTS : List String :=
  [ "Giving up already?",
    "Back to zero, loser",
    "Rage quit?",
    "Starting fresh, huh?",
    "Couldn\x27t handle it?",
    "The walk of shame",
    "Reset of defeat" ]

/-- The module-level `EASTER_EGGS` dict of src/main.py, as an association list. -/
def EASTER_EGGS : List (Nat × String) :=
  [ (69, "Nice."),
    (420, "Blaze it"),
    (666, "\\m/ HAIL \\m/"),
    (1337, "L33T H4X0R"),
    (80085, "Really?") ]

/-- One confetti particle (`{'x', 'y', 'speed', 'drift'}` in `start_confetti`). -/
structure Particle where
  x : Int
  y : Int
  speed : Int
  drift : Int
deriving Repr, DecidableEq

/-- The mutable fields of the `ButtonCounter` instance that the control logic
reads or writes (display handles excluded: they only draw). -/
structure CounterState where
  count : Nat
  high_score : Nat
  record_broken : Bool
  message : String
  message_timeout : Nat
  clicks_since_taunt : Nat
  api_key : String
  ai_taunt_cache : List String
  taunts_since_ai : Nat
  confetti_particles : List Particle
  last_confetti_update : Nat
  msg_line1 : String
  msg_line2 : String
  msg_scroll_offset : Nat
  last_scroll_update : Nat
  last_activity : Nat
  display_dimmed : Bool
  last_count_press : Nat
  last_reset_press : Nat
deriving Repr, DecidableEq

/-- Oracle for the outcomes of the random / remote calls one operation may
make: `taunt_roll` is the value `random.randint(1, 40)` would return,
`taunt_choice` and `reset_choice` index the uniform `random.choice` picks,
`wifi_ok` and `raw_taunts` describe the outcome of `fetch_ai_taunts`
(connection success and the returned lines), and `confetti` is the batch of
15 random particles `start_confetti` would spawn. -/
structure Rand where
  taunt_roll : Nat
  taunt_choice : Nat
  reset_choice : Nat
  wifi_ok : Bool
  raw_taunts : List String
  confetti : List Particle
deriving Repr, DecidableEq

/-- External effects one operation performed: which spectacle animation was
played (easter-egg value / exploded score), whether a value was written to
the persistent high-score store (`save_high_score`), and whether a confetti
burst was started. -/
structure Effects where
  easter_anim : Option Nat
  explosion_anim : Option Nat
  saved_high_score : Option Nat
  confetti_started : Bool
deriving Repr, DecidableEq

/-- No external effect. -/
def noEffects : Effects :=
  { easter_anim := none, explosion_anim := none,
    saved_high_score := none, confetti_started := false }

/-- Embeds `random.choice(l)`: the oracle index `i` selects an element. -/
def random_choice (i : Nat) (l : List String) : String :=
  l.getD (i % l.length) ""

/-- Embeds `ButtonCounter.__init__` state initialisation: `high0` is the
value `load_high_score()` returned, `key` the value `load_api_key()`
returned, `now` is `time.ticks_ms()` at construction. -/
def initState (high0 : Nat) (key : String) (now : Nat) : CounterState :=
  { count := 0, high_score := high0, record_broken := false,
    message := "", message_timeout := 0, clicks_since_taunt := 0,
    api_key := key, ai_taunt_cache := [], taunts_since_ai := 0,
    confetti_particles := [], last_confetti_update := 0,
    msg_line1 := "", msg_line2 := "", msg_scroll_offset := 0,
    last_scroll_update := 0, last_activity := now, display_dimmed := false,
    last_count_press := 0, last_reset_press := 0 }

/-- Embeds `wake_display`: restore brightness if dimmed, stamp activity. -/
def wake_display (s : CounterState) (now : Nat) : CounterState :=
  { s with display_dimmed := false, last_activity := now }

/-- Embeds `check_display_timeout`: dim after 30 s of inactivity. -/
def check_display_timeout (s : CounterState) (now : Nat) : CounterState :=
  if s.display_dimmed = false ∧ (30000 : Int) ≤ ticksDiff now s.last_activity then
    { s with display_dimmed := true }
  else s

/-- Embeds `start_confetti`: replace the particle set by the 15 freshly
spawned random particles (supplied by the oracle) and stamp the update time. -/
def start_confetti (s : CounterState) (ps : List Particle) (now : Nat) : CounterState :=
  { s with confetti_particles := ps, last_confetti_update := now }

/-- Embeds `should_show_taunt`: bump `clicks_since_taunt`; once it has
reached 20 and the 1-in-40 roll hits, clear it and report `true`. -/
def should_show_taunt (s : CounterState) (roll : Nat) : CounterState × Bool :=
  let s1 := { s with clicks_since_taunt := s.clicks_since_taunt + 1 }
  if 20 ≤ s1.clicks_since_taunt ∧ roll = 1 then
    ({ s1 with clicks_since_taunt := 0 }, true)
  else
    (s1, false)

/-- Embeds `fetch_ai_taunts`: empty on missing key or failed connection,
otherwise the response lines filtered to non-empty strings of at most 32
characters. -/
def fetch_ai_taunts (key : String) (wifi_ok : Bool) (raw : List String) : List String :=
  if key = "" then []
  else if wifi_ok = false then []
  else raw.filter (fun l => (!(l == "")) && decide (l.length ≤ 32))

/-- Embeds `get_taunt`: every 4th taunt (when a key is configured) prefer the
AI cache, refilling it when empty; otherwise a random local pick. -/
def get_taunt (s : CounterState) (r : Rand) : CounterState × String :=
  let s1 := { s with taunts_since_ai := s.taunts_since_ai + 1 }
  if s1.api_key ≠ "" ∧ 4 ≤ s1.taunts_since_ai then
    let s2 := { s1 with taunts_since_ai := 0 }
    let s3 :=
      if s2.ai_taunt_cache.isEmpty then
        { s2 with ai_taunt_cache := fetch_ai_taunts s2.api_key r.wifi_ok r.raw_taunts }
      else s2
    if s3.ai_taunt_cache.isEmpty then
      (s3, random_choice r.taunt_choice TAUNTS)
    else
      ({ s3 with ai_taunt_cache := s3.ai_taunt_cache.dropLast },
       s3.ai_taunt_cache.getLastD "")
  else
    (s1, random_choice r.taunt_choice TAUNTS)

/-- Embeds the downward scan of `word_wrap`: for `i` from `max_chars` down to
1, the first `i` with `msg[i-1] == ' '` gives break point `i - 1`; if none,
the break point stays `max_chars`. -/
def break_scan (cs : List Char) (max_chars : Nat) : Nat → Nat
  | 0 => max_chars
  | Nat.succ i => if cs.getD i 'x' = ' ' then i else break_scan cs max_chars i

/-- Embeds `word_wrap`: split into two trimmed lines at the last space not
past `max_chars`, or hard at `max_chars` when no space is found. -/
def word_wrap (msg : String) (max_chars : Nat) : String × String :=
  if msg.length ≤ max_chars then (msg, "")
  else
    let bp := break_scan msg.data max_chars max_chars
    ((msg.take bp).trim, (msg.drop bp).trim)

/-- Embeds `set_message` (default duration 4000 ms passed explicitly at call
sites): store the text, wrap it, reset the scroll, stamp expiry. -/
def set_message (s : CounterState) (msg : String) (now : Nat) (duration_ms : Nat) : CounterState :=
  let lines := word_wrap msg 16
  { s with message := msg, msg_line1 := lines.1, msg_line2 := lines.2,
           msg_scroll_offset := 0, last_scroll_update := now,
           message_timeout := now + duration_ms }

/-- Embeds `clear_message_if_expired` (state part; the redraw is display-only). -/
def clear_message_if_expired (s : CounterState) (now : Nat) : CounterState :=
  if s.message ≠ "" ∧ s.message_timeout < now then
    { s with message := "" }
  else s

/-- Embeds `update_confetti`: no-op when empty or within 50 ms of the last
update; otherwise advance every particle and prune those at `y ≥ 70`. -/
def update_confetti (s : CounterState) (now : Nat) : CounterState :=
  if s.confetti_particles.isEmpty then s
  else if ticksDiff now s.last_confetti_update < 50 then s
  else
    let moved := s.confetti_particles.map
      (fun p => { p with y := p.y + p.speed, x := p.x + p.drift })
    { s with confetti_particles := moved.filter (fun p => p.y < 70),
             last_confetti_update := now }

/-- Embeds the message-scroll block of `run` (src/main.py lines 856-863):
when a message with an over-width second line is active and 200 ms have
passed, advance the cyclic offset, wrapping at `len(line2) + 3`. -/
def scroll_step (s : CounterState) (now : Nat) : CounterState :=
  if s.message ≠ "" ∧ s.msg_line2 ≠ "" ∧ 16 < s.msg_line2.length then
    if (200 : Int) ≤ ticksDiff now s.last_scroll_update then
      let off := s.msg_scroll_offset + 1
      let off2 := if s.msg_line2.length + 3 ≤ off then 0 else off
      { s with last_scroll_update := now, msg_scroll_offset := off2 }
    else s
  else s

/-- Embeds `handle_count_button`: debounce, wake, increment, then in priority
order easter egg / new record / milestone / probabilistic taunt, with the
high-score update and persistence of the first two branches. -/
def handle_count_button (s : CounterState) (now : Nat) (r : Rand) : CounterState × Effects :=
  if ticksDiff now s.last_count_press < (debounce_ms : Int) then (s, noEffects)
  else
    let s1 := wake_display s now
    let s2 := { s1 with last_count_press := now, count := s1.count + 1 }
    match List.lookup s2.count EASTER_EGGS with
    | some eggMsg =>
      let s3 := start_confetti s2 r.confetti now
      let s4 := set_message s3 eggMsg now 4000
      if s4.high_score < s4.count then
        ({ s4 with high_score := s4.count },
         { easter_anim := some s4.count, explosion_anim := none,
           saved_high_score := some s4.count, confetti_started := true })
      else
        (s4, { easter_anim := some s4.count, explosion_anim := none,
               saved_high_score := none, confetti_started := true })
    | none =>
      if s2.high_score < s2.count then
        if s2.record_broken = false then
          let s3 := { s2 with record_broken := true }
          let s4 := set_message s3 "NEW RECORD!" now 4000
          let s5 := start_confetti s4 r.confetti now
          ({ s5 with high_score := s5.count },
           { easter_anim := none, explosion_anim := none,
             saved_high_score := some s5.count, confetti_started := true })
        else if 0 < s2.count ∧ s2.count % 100 = 0 then
          let s3 := start_confetti s2 r.confetti now
          ({ s3 with high_score := s3.count },
           { easter_anim := none, explosion_anim := none,
             saved_high_score := some s3.count, confetti_started := true })
        else
          let st := should_show_taunt s2 r.taunt_roll
          let s4 :=
            if st.2 then
              let tt := get_taunt st.1 r
              set_message tt.1 tt.2 now 4000
            else st.1
          ({ s4 with high_score := s4.count },
           { easter_anim := none, explosion_anim := none,
             saved_high_score := some s4.count, confetti_started := false })
      else if 0 < s2.count ∧ s2.count % 100 = 0 then
        (start_confetti s2 r.confetti now,
         { easter_anim := none, explosion_anim := none,
           saved_high_score := none, confetti_started := true })
      else
        let st := should_show_taunt s2 r.taunt_roll
        if st.2 then
          let tt := get_taunt st.1 r
          (set_message tt.1 tt.2 now 4000, noEffects)
        else
          (st.1, noEffects)

/-- Embeds `handle_reset_button`: debounce, wake, and when the count is
positive zero it, clear the taunt gate and the session record flag, and
always show a random reset taunt. -/
def handle_reset_button (s : CounterState) (now : Nat) (r : Rand) : CounterState :=
  if ticksDiff now s.last_reset_press < (debounce_ms : Int) then s
  else
    let s1 := wake_display s now
    let s2 := { s1 with last_reset_press := now }
    if 0 < s2.count then
      let s3 := { s2 with count := 0, clicks_since_taunt := 0, record_broken := false }
      set_message s3 (random_choice r.reset_choice RESET_TAUNTS) now 4000
    else s2

/-- Embeds `reset_high_score` (the secret reset): play the explosion
animation over the old high score, zero count and high score, clear the
session flags, persist 0, show the fixed destroyed message. -/
def reset_high_score (s : CounterState) (now : Nat) : CounterState × Effects :=
  let old_score := s.high_score
  let s1 := { s with high_score := 0, count := 0,
                     record_broken := false, clicks_since_taunt := 0 }
  let s2 := set_message s1 "Score destroyed!" now 4000
  (s2, { easter_anim := none, explosion_anim := some old_score,
         saved_high_score := some 0, confetti_started := false })

/-- The local variables of `ButtonCounter.run` together with the counter
instance: previous sampled levels, reset-hold tracking, and the dual-press
secret-combo tracking. -/
structure LoopState where
  bc : CounterState
  prev_count : Nat
  prev_reset : Nat
  reset_press_start : Nat
  showing_stats : Bool
  both_pressed_start : Nat
  secret_reset_triggered : Bool
deriving Repr, DecidableEq

/-- Which dispatches one `run` iteration performed: whether
`reset_high_score` fired, whether `handle_count_button` /
`handle_reset_button` were invoked, whether the stats screen was entered,
and whether the normal display was restored on release from stats. -/
structure TickEffects where
  secret_reset_fired : Bool
  count_handler : Bool
  reset_handler : Bool
  stats_shown : Bool
  display_restored : Bool
deriving Repr, DecidableEq

/-- An iteration with no dispatch at all. -/
def noTickEffects : TickEffects :=
  { secret_reset_fired := false, count_handler := false,
    reset_handler := false, stats_shown := false, display_restored := false }

/-- The housekeeping tail of one `run` iteration (expiry, scroll, confetti,
dim check), skipped when the iteration `continue`d out of the combo branch. -/
def tick_updates (s : CounterState) (now : Nat) : CounterState :=
  check_display_timeout (update_confetti (scroll_step (clear_message_if_expired s now) now) now) now

/-- The combo branch of one `run` iteration, taken when both channels read
pressed: start the dual-press timer on its first tick, fire
`reset_high_score` once after 3000 ms, then `continue` (only the previous
levels are updated; all single-button logic and housekeeping is skipped). -/
def comboStep (ls : LoopState) (now : Nat) : LoopState × TickEffects :=
  if ls.both_pressed_start = 0 then
    ({ ls with both_pressed_start := now, prev_count := 0, prev_reset := 0 },
     noTickEffects)
  else if ls.secret_reset_triggered = false ∧ (3000 : Int) ≤ ticksDiff now ls.both_pressed_start then
    ({ ls with bc := (reset_high_score ls.bc now).1,
               secret_reset_triggered := true, prev_count := 0, prev_reset := 0 },
     { noTickEffects with secret_reset_fired := true })
  else
    ({ ls with prev_count := 0, prev_reset := 0 }, noTickEffects)

/-- The single-button part of one `run` iteration, taken when not both
channels are pressed: re-arm the combo, dispatch the count falling edge, the
reset press / hold / release logic, update the previous levels, and run the
housekeeping tail. -/
def normalStep (ls : LoopState) (cc cr now : Nat) (r : Rand) : LoopState × TickEffects :=
  let ls1 := { ls with both_pressed_start := 0, secret_reset_triggered := false }
  let countCalled := ls1.prev_count = 1 ∧ cc = 0
  let bc1 := if countCalled then (handle_count_button ls1.bc now r).1 else ls1.bc
  let rps1 := if ls1.prev_reset = 1 ∧ cr = 0 then now else ls1.reset_press_start
  let statsShown :=
    cr = 0 ∧ 0 < rps1 ∧ (1000 : Int) ≤ ticksDiff now rps1 ∧ ls1.showing_stats = false
  let bc2 := if statsShown then wake_display bc1 now else bc1
  let ss2 := if statsShown then true else ls1.showing_stats
  let released := ls1.prev_reset = 0 ∧ cr = 1
  let restored := released ∧ ss2 = true
  let resetCalled := released ∧ ss2 = false ∧ ticksDiff now rps1 < 1000
  let bc3 := if resetCalled then handle_reset_button bc2 now r else bc2
  let ss3 := if restored then false else ss2
  let rps2 := if released then 0 else rps1
  ({ ls1 with bc := tick_updates bc3 now, prev_count := cc, prev_reset := cr,
              reset_press_start := rps2, showing_stats := ss3 },
   { secret_reset_fired := false,
     count_handler := decide countCalled, reset_handler := decide resetCalled,
     stats_shown := decide statsShown, display_restored := decide restored })

/-- One iteration of `ButtonCounter.run`, given the sampled levels
(`0` = pressed, `1` = released), the tick time, and the random oracle. -/
def tick (ls : LoopState) (cc cr now : Nat) (r : Rand) : LoopState × TickEffects :=
  if cc = 0 ∧ cr = 0 then comboStep ls now else normalStep ls cc cr now r

/-- The inputs one iteration of `run` consumes: the two sampled levels, the
tick time, and the random oracle for that iteration. -/
structure TickIn where
  cc : Nat
  cr : Nat
  now : Nat
  rand : Rand
deriving Repr, DecidableEq

/-- Run a sequence of loop iterations, collecting the dispatch record of
each. -/
def runLoop (ls : LoopState) : List TickIn → LoopState × List TickEffects
  | [] => (ls, [])
  | i :: is =>
    let se := tick ls i.cc i.cr i.now i.rand
    let rest := runLoop se.1 is
    (rest.1, se.2 :: rest.2)

/-- The operations of the spec's ScoreTracker, each carrying the tick time
and random oracle of its invocation. -/
inductive Op where
  | countTap (now : Nat) (r : Rand)
  | resetTap (now : Nat) (r : Rand)
  | secretReset (now : Nat)
deriving Repr, DecidableEq

/-- Apply one ScoreTracker operation to the counter state. -/
def applyOp (s : CounterState) : Op → CounterState
  | .countTap now r => (handle_count_button s now r).1
  | .resetTap now r => handle_reset_button s now r
  | .secretReset now => (reset_high_score s now).1

/-- Apply a sequence of ScoreTracker operations in order. -/
def applyOps (s : CounterState) (ops : List Op) : CounterState :=
  ops.foldl applyOp s

/-- A fixed random oracle used to instantiate witnesses. -/
def rOracle : Rand :=
  { taunt_roll := 2, taunt_choice := 0, reset_choice := 0,
    wifi_ok := false, raw_taunts := [], confetti := [] }

/-- A fresh device state: count 0, high score 0, no API key, booted at tick 0. -/
def sFresh : CounterState := initState 0 "" 0

lemma random_choice_mem (i : Nat) (l : List String) (h : l ≠ []) :
    random_choice i l ∈ l := by
  unfold random_choice
  have hlen : 0 < l.length := List.length_pos.mpr h
  have hm : i % l.length < l.length := Nat.mod_lt _ hlen
  rw [List.getD_eq_getElem _ _ hm]
  exact List.getElem_mem hm

/-- C1 (counterexample): from the fresh state a single accepted count press
yields count 1 but sets the "NEW RECORD!" message and starts confetti, so
"no message set and no animation started" is false. -/
theorem claim1_fresh_tap_counterexample :
    (handle_count_button sFresh 1000 rOracle).1.count = 1 ∧
    (handle_count_button sFresh 1000 rOracle).1.message = "NEW RECORD!" ∧
    (handle_count_button sFresh 1000 rOracle).2.confetti_started = true := by
  decide

/-- C1 (amended): from a fresh device state (count 0, high score 0, record
not yet broken this session), one accepted count press gives count 1, sets
the "NEW RECORD!" message, starts confetti, marks the record broken, and
updates and persists the high score to 1; no easter-egg animation plays. -/
theorem claim1_fresh_tap (key : String) (t0 now : Nat) (r : Rand)
    (hdb : 200 ≤ now) :
    (handle_count_button (initState 0 key t0) now r).1.count = 1 ∧
    (handle_count_button (initState 0 key t0) now r).1.message = "NEW RECORD!" ∧
    (handle_count_button (initState 0 key t0) now r).1.record_broken = true ∧
    (handle_count_button (initState 0 key t0) now r).1.high_score = 1 ∧
    (handle_count_button (initState 0 key t0) now r).2.confetti_started = true ∧
    (handle_count_button (initState 0 key t0) now r).2.saved_high_score = some 1 ∧
    (handle_count_button (initState 0 key t0) now r).2.easter_anim = none := by
  have hcond : ¬ (ticksDiff now 0 < (debounce_ms : Int)) := by
    simp only [ticksDiff, debounce_ms]
    omega
  simp [handle_count_button, hcond, initState, wake_display, set_message,
        start_confetti, List.lookup, EASTER_EGGS]

/-- C1 witness for the amended theorem. -/
theorem claim1_fresh_tap_witness :
    (handle_count_button (initState 0 "" 0) 500 rOracle).1.count = 1 ∧
    (handle_count_button (initState 0 "" 0) 500 rOracle).1.message = "NEW RECORD!" ∧
    (handle_count_button (initState 0 "" 0) 500 rOracle).1.record_broken = true ∧
    (handle_count_button (initState 0 "" 0) 500 rOracle).1.high_score = 1 ∧
    (handle_count_button (initState 0 "" 0) 500 rOracle).2.confetti_started = true ∧
    (handle_count_button (initState 0 "" 0) 500 rOracle).2.saved_high_score = some 1 ∧
    (handle_count_button (initState 0 "" 0) 500 rOracle).2.easter_anim = none :=
  claim1_fresh_tap "" 0 500 rOracle (by decide)

section ProjLemmas

variable (s : CounterState) (now : Nat) (r : Rand) (ps : List Particle)
  (msg : String) (d roll : Nat)

@[simp] lemma wake_display_count : (wake_display s now).count = s.count := rfl
@[simp] lemma wake_display_high : (wake_display s now).high_score = s.high_score := rfl
@[simp] lemma wake_display_record : (wake_display s now).record_broken = s.record_broken := rfl
@[simp] lemma wake_display_clicks : (wake_display s now).clicks_since_taunt = s.clicks_since_taunt := rfl
@[simp] lemma wake_display_message : (wake_display s now).message = s.message := rfl
@[simp] lemma wake_display_line2 : (wake_display s now).msg_line2 = s.msg_line2 := rfl
@[simp] lemma wake_display_offset : (wake_display s now).msg_scroll_offset = s.msg_scroll_offset := rfl

@[simp] lemma start_confetti_count : (start_confetti s ps now).count = s.count := rfl
@[simp] lemma start_confetti_high : (start_confetti s ps now).high_score = s.high_score := rfl
@[simp] lemma start_confetti_record : (start_confetti s ps now).record_broken = s.record_broken := rfl
@[simp] lemma start_confetti_clicks : (start_confetti s ps now).clicks_since_taunt = s.clicks_since_taunt := rfl
@[simp] lemma start_confetti_message : (start_confetti s ps now).message = s.message := rfl
@[simp] lemma start_confetti_line2 : (start_confetti s ps now).msg_line2 = s.msg_line2 := rfl
@[simp] lemma start_confetti_offset : (start_confetti s ps now).msg_scroll_offset = s.msg_scroll_offset := rfl

@[simp] lemma set_message_count : (set_message s msg now d).count = s.count := rfl
@[simp] lemma set_message_high : (set_message s msg now d).high_score = s.high_score := rfl
@[simp] lemma set_message_record : (set_message s msg now d).record_broken = s.record_broken := rfl
@[simp] lemma set_message_clicks : (set_message s msg now d).clicks_since_taunt = s.clicks_since_taunt := rfl
@[simp] lemma set_message_message : (set_message s msg now d).message = msg := rfl
@[simp] lemma set_message_offset : (set_message s msg now d).msg_scroll_offset = 0 := rfl

@[simp] lemma should_show_taunt_count : (should_show_taunt s roll).1.count = s.count := by
  simp only [should_show_taunt]; split <;> rfl
@[simp] lemma should_show_taunt_high : (should_show_taunt s roll).1.high_score = s.high_score := by
  simp only [should_show_taunt]; split <;> rfl
@[simp] lemma should_show_taunt_record : (should_show_taunt s roll).1.record_broken = s.record_broken := by
  simp only [should_show_taunt]; split <;> rfl
@[simp] lemma should_show_taunt_line2 : (should_show_taunt s roll).1.msg_line2 = s.msg_line2 := by
  simp only [should_show_taunt]; split <;> rfl
@[simp] lemma should_show_taunt_offset : (should_show_taunt s roll).1.msg_scroll_offset = s.msg_scroll_offset := by
  simp only [should_show_taunt]; split <;> rfl

@[simp] lemma get_taunt_count : (get_taunt s r).1.count = s.count := by
  simp only [get_taunt]; repeat' split
  all_goals rfl
@[simp] lemma get_taunt_high : (get_taunt s r).1.high_score = s.high_score := by
  simp only [get_taunt]; repeat' split
  all_goals rfl
@[simp] lemma get_taunt_record : (get_taunt s r).1.record_broken = s.record_broken := by
  simp only [get_taunt]; repeat' split
  all_goals rfl
@[simp] lemma get_taunt_clicks : (get_taunt s r).1.clicks_since_taunt = s.clicks_since_taunt := by
  simp only [get_taunt]; repeat' split
  all_goals rfl
@[simp] lemma get_taunt_line2 : (get_taunt s r).1.msg_line2 = s.msg_line2 := by
  simp only [get_taunt]; repeat' split
  all_goals rfl
@[simp] lemma get_taunt_offset : (get_taunt s r).1.msg_scroll_offset = s.msg_scroll_offset := by
  simp only [get_taunt]; repeat' split
  all_goals rfl

end ProjLemmas

lemma applyOp_inv (s : CounterState) (op : Op) (h : s.count ≤ s.high_score) :
    (applyOp s op).count ≤ (applyOp s op).high_score := by
  cases op with
  | countTap now r =>
    simp only [applyOp, handle_count_button]
    split
    · exact h
    · split
      · split <;> simp_all
      · split
        · split
          · simp
          · split
            · simp
            · simp
        · split
          · simp_all
          · split <;> simp_all
  | resetTap now r =>
    simp only [applyOp, handle_reset_button]
    split
    · exact h
    · split
      · simp
      · simpa using h
  | secretReset now =>
    simp [applyOp, reset_high_score]

lemma applyOps_inv (s : CounterState) (ops : List Op) (h : s.count ≤ s.high_score) :
    (applyOps s ops).count ≤ (applyOps s ops).high_score := by
  induction ops generalizing s with
  | nil => simpa [applyOps]
  | cons op ops ih =>
    simp only [applyOps, List.foldl_cons] at *
    exact ih (applyOp s op) (applyOp_inv s op h)

/-- C2: starting from a freshly constructed device (count 0, any loaded high
score), after every sequence of count presses, reset presses and secret
resets, the count is non-negative and the high score is at least the count. -/
theorem claim2_counter_invariant (high0 : Nat) (key : String) (t0 : Nat) (ops : List Op) :
    0 ≤ (applyOps (initState high0 key t0) ops).count ∧
    (applyOps (initState high0 key t0) ops).count ≤
      (applyOps (initState high0 key t0) ops).high_score := by
  refine ⟨Nat.zero_le _, applyOps_inv _ _ ?_⟩
  simp [initState]

/-- C3: the secret reset plays the explosion animation over the high score
that was current when it started, zeroes count and high score, clears the
session flags (`record_broken`, `clicks_since_taunt`), persists 0 to the
high-score store, and sets the fixed destroyed message. -/
theorem claim3_secret_reset (s : CounterState) (now : Nat) :
    (reset_high_score s now).2.explosion_anim = some s.high_score ∧
    (reset_high_score s now).1.count = 0 ∧
    (reset_high_score s now).1.high_score = 0 ∧
    (reset_high_score s now).1.record_broken = false ∧
    (reset_high_score s now).1.clicks_since_taunt = 0 ∧
    (reset_high_score s now).2.saved_high_score = some 0 ∧
    (reset_high_score s now).1.message = "Score destroyed!" := by
  simp [reset_high_score, set_message]

/-- C4: an accepted reset press with positive count zeroes the count, clears
the taunt gate and the session record flag, and always shows a message from
the reset-taunt pool; with count 0 none of those fields change and the
message is untouched. -/
theorem claim4_reset_tap (s : CounterState) (now : Nat) (r : Rand)
    (hdb : (debounce_ms : Int) ≤ ticksDiff now s.last_reset_press) :
    (0 < s.count →
      (handle_reset_button s now r).count = 0 ∧
      (handle_reset_button s now r).clicks_since_taunt = 0 ∧
      (handle_reset_button s now r).record_broken = false ∧
      (handle_reset_button s now r).message ∈ RESET_TAUNTS) ∧
    (s.count = 0 →
      (handle_reset_button s now r).count = s.count ∧
      (handle_reset_button s now r).clicks_since_taunt = s.clicks_since_taunt ∧
      (handle_reset_button s now r).record_broken = s.record_broken ∧
      (handle_reset_button s now r).message = s.message) := by
  have hcond : ¬ (ticksDiff now s.last_reset_press < (debounce_ms : Int)) := by omega
  constructor
  · intro hpos
    simp [handle_reset_button, hcond, wake_display, hpos, set_message]
    exact random_choice_mem _ _ (by decide)
  · intro hzero
    simp [handle_reset_button, hcond, wake_display, hzero]

/-- C4 witness. -/
theorem claim4_reset_tap_witness :
    ((handle_reset_button { sFresh with count := 5 } 300 rOracle).count = 0 ∧
     (handle_reset_button { sFresh with count := 5 } 300 rOracle).clicks_since_taunt = 0 ∧
     (handle_reset_button { sFresh with count := 5 } 300 rOracle).record_broken = false ∧
     (handle_reset_button { sFresh with count := 5 } 300 rOracle).message ∈ RESET_TAUNTS) ∧
    ((handle_reset_button sFresh 300 rOracle).count = sFresh.count ∧
     (handle_reset_button sFresh 300 rOracle).clicks_since_taunt = sFresh.clicks_since_taunt ∧
     (handle_reset_button sFresh 300 rOracle).record_broken = sFresh.record_broken ∧
     (handle_reset_button sFresh 300 rOracle).message = sFresh.message) :=
  ⟨(claim4_reset_tap { sFresh with count := 5 } 300 rOracle (by decide)).1 (by decide),
   (claim4_reset_tap sFresh 300 rOracle (by decide)).2 (by decide)⟩

/-- C5: the taunt decision returns false whenever the incremented
`clicks_since_taunt` counter is still below the minimum of 20; whenever it
returns true the roll succeeded at or above the minimum and the counter is
reset to 0; whenever the 1-in-40 roll fails the decision is false and the
counter keeps accumulating (its value becomes the old value plus one). -/
theorem claim5_taunt_gate (s : CounterState) (roll : Nat) :
    (s.clicks_since_taunt + 1 < 20 →
      (should_show_taunt s roll).2 = false ∧
      (should_show_taunt s roll).1.clicks_since_taunt = s.clicks_since_taunt + 1) ∧
    ((should_show_taunt s roll).2 = true →
      20 ≤ s.clicks_since_taunt + 1 ∧ roll = 1 ∧
      (should_show_taunt s roll).1.clicks_since_taunt = 0) ∧
    (roll ≠ 1 →
      (should_show_taunt s roll).2 = false ∧
      (should_show_taunt s roll).1.clicks_since_taunt = s.clicks_since_taunt + 1) := by
  simp only [should_show_taunt]
  split_ifs with hc
  · exact ⟨fun hlt => absurd hc.1 (by omega),
           fun _ => ⟨hc.1, hc.2, rfl⟩,
           fun hroll => absurd hc.2 hroll⟩
  · exact ⟨fun _ => ⟨rfl, rfl⟩,
           fun ht => by simp at ht,
           fun _ => ⟨rfl, rfl⟩⟩

/-- C5 witness. -/
theorem claim5_taunt_gate_witness :
    ((should_show_taunt sFresh 1).2 = false ∧
     (should_show_taunt sFresh 1).1.clicks_since_taunt = sFresh.clicks_since_taunt + 1) ∧
    ((should_show_taunt { sFresh with clicks_since_taunt := 25 } 2).2 = false ∧
     (should_show_taunt { sFresh with clicks_since_taunt := 25 } 2).1.clicks_since_taunt =
       { sFresh with clicks_since_taunt := 25 }.clicks_since_taunt + 1) :=
  ⟨(claim5_taunt_gate sFresh 1).1 (by decide),
   (claim5_taunt_gate { sFresh with clicks_since_taunt := 25 } 2).2.2 (by decide)⟩

/-- C6: when an accepted count press brings the count to an easter-egg key,
the table's exact message is set, the animation bound to that value plays,
confetti starts, and when the new count exceeds the high score the high
score is updated and persisted. -/
theorem claim6_easter_egg (s : CounterState) (now : Nat) (r : Rand) (msg : String)
    (hdb : (debounce_ms : Int) ≤ ticksDiff now s.last_count_press)
    (hegg : List.lookup (s.count + 1) EASTER_EGGS = some msg) :
    (handle_count_button s now r).2.easter_anim = some (s.count + 1) ∧
    (handle_count_button s now r).1.message = msg ∧
    (handle_count_button s now r).2.confetti_started = true ∧
    (handle_count_button s now r).1.count = s.count + 1 ∧
    (s.high_score < s.count + 1 →
      (handle_count_button s now r).1.high_score = s.count + 1 ∧
      (handle_count_button s now r).2.saved_high_score = some (s.count + 1)) := by
  have hcond : ¬ (ticksDiff now s.last_count_press < (debounce_ms : Int)) := by omega
  by_cases hh : s.high_score < s.count + 1
  · simp [handle_count_button, if_neg hcond, wake_display, hegg,
          start_confetti, set_message, hh]
  · simp [handle_count_button, if_neg hcond, wake_display, hegg,
          start_confetti, set_message, hh]

/-- C6 witness. -/
theorem claim6_easter_egg_witness :
    (handle_count_button { sFresh with count := 68 } 400 rOracle).2.easter_anim = some 69 ∧
    (handle_count_button { sFresh with count := 68 } 400 rOracle).1.message = "Nice." ∧
    (handle_count_button { sFresh with count := 68 } 400 rOracle).2.confetti_started = true ∧
    (handle_count_button { sFresh with count := 68 } 400 rOracle).1.count = 69 ∧
    (handle_count_button { sFresh with count := 68 } 400 rOracle).1.high_score = 69 ∧
    (handle_count_button { sFresh with count := 68 } 400 rOracle).2.saved_high_score = some 69 := by
  have h := claim6_easter_egg { sFresh with count := 68 } 400 rOracle "Nice."
    (by decide) (by decide)
  have h5 := h.2.2.2.2 (by decide)
  exact ⟨h.1, h.2.1, h.2.2.1, h.2.2.2.1, h5.1, h5.2⟩

/-- C10: a press on either channel within the 200 ms debounce window of that
channel's last accepted press leaves the entire counter state unchanged
(including the activity and debounce timestamps) and performs no effect. -/
theorem claim10_debounce_noop (s : CounterState) (now : Nat) (r : Rand) :
    (ticksDiff now s.last_count_press < (debounce_ms : Int) →
      handle_count_button s now r = (s, noEffects)) ∧
    (ticksDiff now s.last_reset_press < (debounce_ms : Int) →
      handle_reset_button s now r = s) := by
  constructor
  · intro h
    simp [handle_count_button, h]
  · intro h
    simp [handle_reset_button, h]

/-- C10 witness. -/
theorem claim10_debounce_noop_witness :
    handle_count_button sFresh 100 rOracle = (sFresh, noEffects) ∧
    handle_reset_button sFresh 100 rOracle = sFresh :=
  ⟨(claim10_debounce_noop sFresh 100 rOracle).1 (by decide),
   (claim10_debounce_noop sFresh 100 rOracle).2 (by decide)⟩


/-- The scroll-offset invariant: the cyclic offset stays below
`len(line2) + 3` (the padding width is 3). -/
abbrev scrollInv (s : CounterState) : Prop :=
  s.msg_scroll_offset < s.msg_line2.length + 3

section MoreProj

variable (s : CounterState) (now : Nat)

@[simp] lemma clear_message_line2 : (clear_message_if_expired s now).msg_line2 = s.msg_line2 := by
  simp only [clear_message_if_expired]; split <;> rfl
@[simp] lemma clear_message_offset : (clear_message_if_expired s now).msg_scroll_offset = s.msg_scroll_offset := by
  simp only [clear_message_if_expired]; split <;> rfl
@[simp] lemma clear_message_count : (clear_message_if_expired s now).count = s.count := by
  simp only [clear_message_if_expired]; split <;> rfl
@[simp] lemma clear_message_high : (clear_message_if_expired s now).high_score = s.high_score := by
  simp only [clear_message_if_expired]; split <;> rfl
@[simp] lemma clear_message_record : (clear_message_if_expired s now).record_broken = s.record_broken := by
  simp only [clear_message_if_expired]; split <;> rfl
@[simp] lemma clear_message_clicks : (clear_message_if_expired s now).clicks_since_taunt = s.clicks_since_taunt := by
  simp only [clear_message_if_expired]; split <;> rfl

@[simp] lemma update_confetti_line2 : (update_confetti s now).msg_line2 = s.msg_line2 := by
  simp only [update_confetti]; repeat' split
  all_goals rfl
@[simp] lemma update_confetti_offset : (update_confetti s now).msg_scroll_offset = s.msg_scroll_offset := by
  simp only [update_confetti]; repeat' split
  all_goals rfl
@[simp] lemma update_confetti_count : (update_confetti s now).count = s.count := by
  simp only [update_confetti]; repeat' split
  all_goals rfl
@[simp] lemma update_confetti_high : (update_confetti s now).high_score = s.high_score := by
  simp only [update_confetti]; repeat' split
  all_goals rfl
@[simp] lemma update_confetti_record : (update_confetti s now).record_broken = s.record_broken := by
  simp only [update_confetti]; repeat' split
  all_goals rfl
@[simp] lemma update_confetti_clicks : (update_confetti s now).clicks_since_taunt = s.clicks_since_taunt := by
  simp only [update_confetti]; repeat' split
  all_goals rfl

@[simp] lemma check_timeout_line2 : (check_display_timeout s now).msg_line2 = s.msg_line2 := by
  simp only [check_display_timeout]; split <;> rfl
@[simp] lemma check_timeout_offset : (check_display_timeout s now).msg_scroll_offset = s.msg_scroll_offset := by
  simp only [check_display_timeout]; split <;> rfl
@[simp] lemma check_timeout_count : (check_display_timeout s now).count = s.count := by
  simp only [check_display_timeout]; split <;> rfl
@[simp] lemma check_timeout_high : (check_display_timeout s now).high_score = s.high_score := by
  simp only [check_display_timeout]; split <;> rfl
@[simp] lemma check_timeout_record : (check_display_timeout s now).record_broken = s.record_broken := by
  simp only [check_display_timeout]; split <;> rfl
@[simp] lemma check_timeout_clicks : (check_display_timeout s now).clicks_since_taunt = s.clicks_since_taunt := by
  simp only [check_display_timeout]; split <;> rfl

@[simp] lemma scroll_step_count : (scroll_step s now).count = s.count := by
  simp only [scroll_step]; repeat' split
  all_goals rfl
@[simp] lemma scroll_step_high : (scroll_step s now).high_score = s.high_score := by
  simp only [scroll_step]; repeat' split
  all_goals rfl
@[simp] lemma scroll_step_record : (scroll_step s now).record_broken = s.record_broken := by
  simp only [scroll_step]; repeat' split
  all_goals rfl
@[simp] lemma scroll_step_clicks : (scroll_step s now).clicks_since_taunt = s.clicks_since_taunt := by
  simp only [scroll_step]; repeat' split
  all_goals rfl

end MoreProj

lemma scrollInv_set_message (s : CounterState) (msg : String) (now d : Nat) :
    scrollInv (set_message s msg now d) := by
  simp only [scrollInv, set_message_offset]
  omega

lemma scrollInv_scroll_step (s : CounterState) (now : Nat) (h : scrollInv s) :
    scrollInv (scroll_step s now) := by
  simp only [scroll_step]
  repeat' split
  all_goals simp_all [scrollInv]

lemma scrollInv_hcb (s : CounterState) (now : Nat) (r : Rand) (h : scrollInv s) :
    scrollInv (handle_count_button s now r).1 := by
  simp only [handle_count_button]
  repeat' split
  all_goals simp_all [scrollInv]

lemma scrollInv_hrb (s : CounterState) (now : Nat) (r : Rand) (h : scrollInv s) :
    scrollInv (handle_reset_button s now r) := by
  simp only [handle_reset_button]
  repeat' split
  all_goals simp_all [scrollInv]

lemma scrollInv_rhs (s : CounterState) (now : Nat) (_h : scrollInv s) :
    scrollInv (reset_high_score s now).1 := by
  simp only [reset_high_score]
  exact scrollInv_set_message _ _ _ _

lemma scrollInv_tick_updates (s : CounterState) (now : Nat) (h : scrollInv s) :
    scrollInv (tick_updates s now) := by
  simp only [tick_updates, scrollInv, check_timeout_offset, check_timeout_line2,
    update_confetti_offset, update_confetti_line2]
  exact scrollInv_scroll_step _ _ (by simpa [scrollInv] using h)

lemma scrollInv_wake (s : CounterState) (now : Nat) (h : scrollInv s) :
    scrollInv (wake_display s now) := by
  simpa [scrollInv] using h

lemma scrollInv_tick (ls : LoopState) (cc cr now : Nat) (r : Rand) (h : scrollInv ls.bc) :
    scrollInv (tick ls cc cr now r).1.bc := by
  simp only [tick]
  split
  · simp only [comboStep]
    repeat' split
    all_goals simp_all
    all_goals exact scrollInv_rhs _ _ h
  · simp only [normalStep]
    apply scrollInv_tick_updates
    repeat' split
    all_goals
      repeat'
        first
        | exact h
        | exact scrollInv_hcb _ _ _ h
        | apply scrollInv_hrb

lemma scroll_step_wrap (s : CounterState) (now : Nat)
    (h1 : s.message ≠ "") (h2 : s.msg_line2 ≠ "") (h3 : 16 < s.msg_line2.length)
    (h4 : (200 : Int) ≤ ticksDiff now s.last_scroll_update)
    (h5 : s.msg_line2.length + 3 ≤ s.msg_scroll_offset + 1) :
    (scroll_step s now).msg_scroll_offset = 0 := by
  simp [scroll_step, h1, h2, h3, h4, h5]

/-- C9: the scroll offset is 0 right after any message is set; every loop
iteration preserves the bound `offset < len(line2) + 3`; and when the
guarded scroll advance reaches the bound the offset wraps back to 0. -/
theorem claim9_scroll_offset_bound :
    (∀ (s : CounterState) (msg : String) (now d : Nat),
      scrollInv (set_message s msg now d)) ∧
    (∀ (ls : LoopState) (cc cr now : Nat) (r : Rand),
      scrollInv ls.bc → scrollInv (tick ls cc cr now r).1.bc) ∧
    (∀ (s : CounterState) (now : Nat),
      s.message ≠ "" → s.msg_line2 ≠ "" → 16 < s.msg_line2.length →
      (200 : Int) ≤ ticksDiff now s.last_scroll_update →
      s.msg_line2.length + 3 ≤ s.msg_scroll_offset + 1 →
      (scroll_step s now).msg_scroll_offset = 0) :=
  ⟨scrollInv_set_message, scrollInv_tick, scroll_step_wrap⟩

/-- A loop state as at the top of `run` on a fresh device. -/
def lsFresh : LoopState :=
  { bc := sFresh, prev_count := 1, prev_reset := 1, reset_press_start := 0,
    showing_stats := false, both_pressed_start := 0, secret_reset_triggered := false }

/-- A state displaying a long scrolling second line, one step before the wrap
bound. -/
def sScroll : CounterState :=
  { sFresh with message := "Stop. Don\x27t. Come back.",
                msg_line1 := "Stop.", msg_line2 := "Don\x27t. Come back.",
                msg_scroll_offset := 19, last_scroll_update := 0 }

/-- C9 witness. -/
theorem claim9_scroll_offset_bound_witness :
    scrollInv (set_message sFresh "NEW RECORD!" 0 4000) ∧
    scrollInv (tick lsFresh 1 1 250 rOracle).1.bc ∧
    (scroll_step sScroll 300).msg_scroll_offset = 0 :=
  ⟨claim9_scroll_offset_bound.1 sFresh "NEW RECORD!" 0 4000,
   claim9_scroll_offset_bound.2.1 lsFresh 1 1 250 rOracle (by decide),
   claim9_scroll_offset_bound.2.2 sScroll 300 (by decide) (by decide) (by decide)
     (by decide) (by decide)⟩


/-- Number of secret-reset firings recorded in a list of tick dispatches. -/
def fires (es : List TickEffects) : Nat :=
  (es.filter (fun e => e.secret_reset_fired)).length

lemma fires_cons_false (e : TickEffects) (es : List TickEffects)
    (h : e.secret_reset_fired = false) : fires (e :: es) = fires es := by
  simp [fires, h]

lemma fires_cons_true (e : TickEffects) (es : List TickEffects)
    (h : e.secret_reset_fired = true) : fires (e :: es) = fires es + 1 := by
  simp [fires, h]

lemma tick_both (ls : LoopState) (now : Nat) (r : Rand) :
    tick ls 0 0 now r = comboStep ls now := by
  simp [tick]

lemma combo_latch (ins : List TickIn) :
    ∀ (ls : LoopState), (∀ i ∈ ins, i.cc = 0 ∧ i.cr = 0) →
      ls.secret_reset_triggered = true →
      fires (runLoop ls ins).2 = 0 ∧
        (runLoop ls ins).1.secret_reset_triggered = true := by
  induction ins with
  | nil => intro ls _ ht; simp [runLoop, fires, ht]
  | cons i is ih =>
    intro ls hall ht
    obtain ⟨hcc, hcr⟩ := hall i (List.mem_cons_self i is)
    have hrest : ∀ j ∈ is, j.cc = 0 ∧ j.cr = 0 := fun j hj => hall j (List.mem_cons_of_mem i hj)
    simp only [runLoop, hcc, hcr, tick_both, comboStep]
    split_ifs with h1 h2
    · rw [fires_cons_false _ _ rfl]
      exact ih _ hrest ht
    · rw [h2.1] at ht
      exact absurd ht (by simp)
    · rw [fires_cons_false _ _ rfl]
      exact ih _ hrest ht

lemma combo_at_most_once (ins : List TickIn) :
    ∀ (ls : LoopState), (∀ i ∈ ins, i.cc = 0 ∧ i.cr = 0) →
      fires (runLoop ls ins).2 ≤ 1 := by
  induction ins with
  | nil => intro ls _; simp [runLoop, fires]
  | cons i is ih =>
    intro ls hall
    obtain ⟨hcc, hcr⟩ := hall i (List.mem_cons_self i is)
    have hrest : ∀ j ∈ is, j.cc = 0 ∧ j.cr = 0 := fun j hj => hall j (List.mem_cons_of_mem i hj)
    simp only [runLoop, hcc, hcr, tick_both, comboStep]
    split_ifs with h1 h2
    · rw [fires_cons_false _ _ rfl]
      exact ih _ hrest
    · rw [fires_cons_true _ _ rfl]
      have h' := combo_latch is
        { ls with bc := (reset_high_score ls.bc i.now).1,
                  secret_reset_triggered := true, prev_count := 0, prev_reset := 0 }
        hrest rfl
      rw [h'.1]
    · rw [fires_cons_false _ _ rfl]
      exact ih _ hrest

lemma combo_fires_once (rest : List TickIn) :
    ∀ (ls : LoopState) (t0 : Nat), (∀ i ∈ rest, i.cc = 0 ∧ i.cr = 0) →
      ls.both_pressed_start = t0 → 0 < t0 → ls.secret_reset_triggered = false →
      (∃ i ∈ rest, t0 + 3000 ≤ i.now) →
      1 ≤ fires (runLoop ls rest).2 := by
  induction rest with
  | nil => intro ls t0 _ _ _ _ hw; simp at hw
  | cons i is ih =>
    intro ls t0 hall hbps ht0 htr hw
    obtain ⟨hcc, hcr⟩ := hall i (List.mem_cons_self i is)
    have hrest : ∀ j ∈ is, j.cc = 0 ∧ j.cr = 0 := fun j hj => hall j (List.mem_cons_of_mem i hj)
    simp only [runLoop, hcc, hcr, tick_both, comboStep]
    split_ifs with h1 h2
    · rw [hbps] at h1
      omega
    · rw [fires_cons_true _ _ rfl]
      omega
    · rw [fires_cons_false _ _ rfl]
      rcases hw with ⟨j, hj, hjt⟩
      rcases List.mem_cons.mp hj with rfl | hjis
      · refine absurd ⟨htr, ?_⟩ h2
        rw [hbps]
        unfold ticksDiff
        omega
      · exact ih _ t0 hrest hbps ht0 htr ⟨j, hjis, hjt⟩

lemma combo_no_single_dispatch (ins : List TickIn) :
    ∀ (ls : LoopState), (∀ i ∈ ins, i.cc = 0 ∧ i.cr = 0) →
      ∀ e ∈ (runLoop ls ins).2, e.count_handler = false ∧ e.reset_handler = false := by
  induction ins with
  | nil => intro ls _ e he; simp [runLoop] at he
  | cons i is ih =>
    intro ls hall e he
    obtain ⟨hcc, hcr⟩ := hall i (List.mem_cons_self i is)
    have hrest : ∀ j ∈ is, j.cc = 0 ∧ j.cr = 0 := fun j hj => hall j (List.mem_cons_of_mem i hj)
    simp only [runLoop, hcc, hcr, tick_both, comboStep] at he
    split_ifs at he with h1 h2
    all_goals rcases List.mem_cons.mp he with rfl | hmem
    all_goals first
      | exact ⟨rfl, rfl⟩
      | exact ih _ hrest e hmem

lemma rearm_on_release (ls : LoopState) (cc cr now : Nat) (r : Rand)
    (h : ¬(cc = 0 ∧ cr = 0)) :
    (tick ls cc cr now r).1.secret_reset_triggered = false ∧
    (tick ls cc cr now r).1.both_pressed_start = 0 := by
  simp [tick, if_neg h, normalStep]

/-- C7: over any run of iterations in which both channels read pressed, the
secret reset fires at most once and no count press and no reset tap is
dispatched; it fires exactly once when some later iteration of the interval
happens at least 3000 ms after the first iteration of the interval (whose
tick count is nonzero); and any iteration where not both channels are pressed
re-arms the combo, clearing the trigger latch and the dual-press timer. -/
theorem claim7_secret_combo :
    (∀ (ls : LoopState) (ins : List TickIn),
      (∀ i ∈ ins, i.cc = 0 ∧ i.cr = 0) →
      fires (runLoop ls ins).2 ≤ 1 ∧
      (∀ e ∈ (runLoop ls ins).2, e.count_handler = false ∧ e.reset_handler = false)) ∧
    (∀ (ls : LoopState) (i0 : TickIn) (rest : List TickIn),
      ls.both_pressed_start = 0 → ls.secret_reset_triggered = false →
      i0.cc = 0 → i0.cr = 0 → 0 < i0.now →
      (∀ i ∈ rest, i.cc = 0 ∧ i.cr = 0) →
      (∃ i ∈ rest, i0.now + 3000 ≤ i.now) →
      fires (runLoop ls (i0 :: rest)).2 = 1) ∧
    (∀ (ls : LoopState) (cc cr now : Nat) (r : Rand), ¬(cc = 0 ∧ cr = 0) →
      (tick ls cc cr now r).1.secret_reset_triggered = false ∧
      (tick ls cc cr now r).1.both_pressed_start = 0) := by
  refine ⟨fun ls ins hall => ⟨combo_at_most_once ins ls hall, combo_no_single_dispatch ins ls hall⟩,
          fun ls i0 rest hbps htr hcc hcr h0 hrest hw => ?_,
          fun ls cc cr now r h => rearm_on_release ls cc cr now r h⟩
  have hall : ∀ i ∈ i0 :: rest, i.cc = 0 ∧ i.cr = 0 := by
    intro i hi
    rcases List.mem_cons.mp hi with rfl | hmem
    · exact ⟨hcc, hcr⟩
    · exact hrest i hmem
  have hle := combo_at_most_once (i0 :: rest) ls hall
  have hge : 1 ≤ fires (runLoop ls (i0 :: rest)).2 := by
    simp only [runLoop, hcc, hcr, tick_both, comboStep]
    rw [if_pos hbps, fires_cons_false _ _ rfl]
    exact combo_fires_once rest _ i0.now hrest rfl h0 htr hw
  omega

/-- C7 witness. -/
theorem claim7_secret_combo_witness :
    (fires (runLoop lsFresh [⟨0, 0, 100, rOracle⟩, ⟨0, 0, 3200, rOracle⟩]).2 ≤ 1 ∧
     (∀ e ∈ (runLoop lsFresh [⟨0, 0, 100, rOracle⟩, ⟨0, 0, 3200, rOracle⟩]).2,
        e.count_handler = false ∧ e.reset_handler = false)) ∧
    fires (runLoop lsFresh (⟨0, 0, 100, rOracle⟩ :: [⟨0, 0, 3200, rOracle⟩])).2 = 1 ∧
    (tick lsFresh 1 0 50 rOracle).1.secret_reset_triggered = false ∧
    (tick lsFresh 1 0 50 rOracle).1.both_pressed_start = 0 :=
  ⟨claim7_secret_combo.1 lsFresh [⟨0, 0, 100, rOracle⟩, ⟨0, 0, 3200, rOracle⟩] (by decide),
   claim7_secret_combo.2.1 lsFresh ⟨0, 0, 100, rOracle⟩ [⟨0, 0, 3200, rOracle⟩]
     rfl rfl rfl rfl (by decide) (by decide) (by decide),
   claim7_secret_combo.2.2 lsFresh 1 0 50 rOracle (by decide)⟩


/-- The fields the spec ScoreTracker owns (plus the taunt gate) agree
between two counter states: a reset-hold episode must leave these untouched. -/
def corePreserved (a b : CounterState) : Prop :=
  a.count = b.count ∧ a.high_score = b.high_score ∧
  a.record_broken = b.record_broken ∧ a.clicks_since_taunt = b.clicks_since_taunt

lemma corePreserved_refl (a : CounterState) : corePreserved a a :=
  ⟨rfl, rfl, rfl, rfl⟩

lemma corePreserved_trans {a b c : CounterState}
    (h1 : corePreserved a b) (h2 : corePreserved b c) : corePreserved a c :=
  ⟨h1.1.trans h2.1, h1.2.1.trans h2.2.1, h1.2.2.1.trans h2.2.2.1, h1.2.2.2.trans h2.2.2.2⟩

@[simp] lemma tick_updates_count (s : CounterState) (now : Nat) :
    (tick_updates s now).count = s.count := by simp [tick_updates]
@[simp] lemma tick_updates_high (s : CounterState) (now : Nat) :
    (tick_updates s now).high_score = s.high_score := by simp [tick_updates]
@[simp] lemma tick_updates_record (s : CounterState) (now : Nat) :
    (tick_updates s now).record_broken = s.record_broken := by simp [tick_updates]
@[simp] lemma tick_updates_clicks (s : CounterState) (now : Nat) :
    (tick_updates s now).clicks_since_taunt = s.clicks_since_taunt := by simp [tick_updates]

lemma corePreserved_tick_updates (s : CounterState) (now : Nat) :
    corePreserved (tick_updates s now) s :=
  ⟨by simp, by simp, by simp, by simp⟩

lemma corePreserved_wake (s : CounterState) (now : Nat) :
    corePreserved (wake_display s now) s :=
  ⟨rfl, rfl, rfl, rfl⟩

/-- The dispatch record of an iteration that only entered the stats screen. -/
def statsEffect : TickEffects :=
  { noTickEffects with stats_shown := true }

/-- The dispatch record of an iteration that only restored the display. -/
def restoreEffect : TickEffects :=
  { noTickEffects with display_restored := true }

/-- The dispatch record of an iteration that only ran the reset-tap handler. -/
def tapEffect : TickEffects :=
  { noTickEffects with reset_handler := true }

/-- Loop state after the press edge of a reset-only press at time `t0`. -/
def pressNext (ls : LoopState) (t0 : Nat) : LoopState :=
  { ls with bc := tick_updates ls.bc t0, prev_count := 1, prev_reset := 0,
            reset_press_start := t0, showing_stats := false,
            both_pressed_start := 0, secret_reset_triggered := false }

/-- Loop state after a held reset tick at `tn` that entered the stats screen. -/
def holdStatsNext (ls : LoopState) (tn t0 : Nat) : LoopState :=
  { ls with bc := tick_updates (wake_display ls.bc tn) tn,
            prev_count := 1, prev_reset := 0,
            reset_press_start := t0, showing_stats := true,
            both_pressed_start := 0, secret_reset_triggered := false }

/-- Loop state after a held reset tick at `tn` with no stats transition. -/
def holdQuietNext (ls : LoopState) (tn t0 : Nat) : LoopState :=
  { ls with bc := tick_updates ls.bc tn, prev_count := 1, prev_reset := 0,
            reset_press_start := t0, showing_stats := ls.showing_stats,
            both_pressed_start := 0, secret_reset_triggered := false }

/-- Loop state after the reset release tick at `tr`, stats path. -/
def releaseRestoreNext (ls : LoopState) (tr : Nat) : LoopState :=
  { ls with bc := tick_updates ls.bc tr, prev_count := 1, prev_reset := 1,
            reset_press_start := 0, showing_stats := false,
            both_pressed_start := 0, secret_reset_triggered := false }

/-- Loop state after the reset release tick at `tr`, tap path. -/
def releaseTapNext (ls : LoopState) (tr : Nat) (r : Rand) : LoopState :=
  { ls with bc := tick_updates (handle_reset_button ls.bc tr r) tr,
            prev_count := 1, prev_reset := 1,
            reset_press_start := 0, showing_stats := false,
            both_pressed_start := 0, secret_reset_triggered := false }

lemma press_tick_eq (ls : LoopState) (t0 : Nat) (r : Rand)
    (hpr : ls.prev_reset = 1) (hss : ls.showing_stats = false) :
    tick ls 1 0 t0 r = (pressNext ls t0, noTickEffects) := by
  simp [tick, normalStep, hpr, hss, ticksDiff, noTickEffects, pressNext]

lemma hold_tick_eq (ls : LoopState) (tn : Nat) (r : Rand) (t0 : Nat)
    (hpr : ls.prev_reset = 0) (hrps : ls.reset_press_start = t0) (ht0 : 0 < t0) :
    tick ls 1 0 tn r =
      (if 1000 ≤ ticksDiff tn t0 ∧ ls.showing_stats = false then
        (holdStatsNext ls tn t0, statsEffect)
      else
        (holdQuietNext ls tn t0, noTickEffects)) := by
  by_cases hc : 1000 ≤ ticksDiff tn t0 ∧ ls.showing_stats = false
  · rw [if_pos hc]
    simp [tick, normalStep, hpr, hrps, ht0, hc.1, hc.2, noTickEffects,
          holdStatsNext, statsEffect]
  · rw [if_neg hc]
    rcases Decidable.not_and_iff_or_not.mp hc with ha | hb
    · simp [tick, normalStep, hpr, hrps, ht0, ha, noTickEffects, holdQuietNext]
    · have hb2 : ls.showing_stats = true := by
        cases h : ls.showing_stats
        · exact absurd h hb
        · rfl
      simp [tick, normalStep, hpr, hrps, ht0, hb2, noTickEffects, holdQuietNext]

lemma release_tick_eq (ls : LoopState) (tr : Nat) (r : Rand)
    (hpr : ls.prev_reset = 0) :
    tick ls 1 1 tr r =
      (if ls.showing_stats = true then
        (releaseRestoreNext ls tr, restoreEffect)
      else if ticksDiff tr ls.reset_press_start < 1000 then
        (releaseTapNext ls tr r, tapEffect)
      else
        (releaseRestoreNext ls tr, noTickEffects)) := by
  by_cases hs : ls.showing_stats = true
  · rw [if_pos hs]
    simp [tick, normalStep, hpr, hs, noTickEffects, releaseRestoreNext, restoreEffect]
  · have hs2 : ls.showing_stats = false := by
      cases h : ls.showing_stats
      · rfl
      · exact absurd h hs
    rw [if_neg hs]
    by_cases hd : ticksDiff tr ls.reset_press_start < 1000
    · rw [if_pos hd]
      simp [tick, normalStep, hpr, hs2, hd, noTickEffects, releaseTapNext, tapEffect]
    · rw [if_neg hd]
      simp [tick, normalStep, hpr, hs2, hd, noTickEffects, releaseRestoreNext]

lemma exists_stats_cons_false (e0 : TickEffects) (L : List TickEffects)
    (h : e0.stats_shown = false) :
    (∃ e ∈ e0 :: L, e.stats_shown = true) ↔ (∃ e ∈ L, e.stats_shown = true) := by
  simp [h]


lemma hold_phase (his : List TickIn) :
    ∀ (ls : LoopState) (t0 : Nat),
      (∀ i ∈ his, i.cc = 1 ∧ i.cr = 0) →
      ls.prev_reset = 0 → ls.reset_press_start = t0 → 0 < t0 →
      (runLoop ls his).1.prev_reset = 0 ∧
      (runLoop ls his).1.reset_press_start = t0 ∧
      corePreserved (runLoop ls his).1.bc ls.bc ∧
      ((runLoop ls his).1.showing_stats = true ↔
        (ls.showing_stats = true ∨ ∃ i ∈ his, 1000 ≤ ticksDiff i.now t0)) ∧
      (∀ e ∈ (runLoop ls his).2,
        e.count_handler = false ∧ e.reset_handler = false ∧ e.display_restored = false) ∧
      ((∃ e ∈ (runLoop ls his).2, e.stats_shown = true) ↔
        (ls.showing_stats = false ∧ ∃ i ∈ his, 1000 ≤ ticksDiff i.now t0)) := by
  induction his with
  | nil =>
    intro ls t0 _ hpr hrps _
    refine ⟨hpr, hrps, corePreserved_refl _, by simp [runLoop], by simp [runLoop],
            by simp [runLoop]⟩
  | cons i is ih =>
    intro ls t0 hall hpr hrps ht0
    obtain ⟨hcc, hcr⟩ := hall i (List.mem_cons_self i is)
    have hrest : ∀ j ∈ is, j.cc = 1 ∧ j.cr = 0 :=
      fun j hj => hall j (List.mem_cons_of_mem i hj)
    have hstep := hold_tick_eq ls i.now i.rand t0 hpr hrps ht0
    by_cases hc : 1000 ≤ ticksDiff i.now t0 ∧ ls.showing_stats = false
    · rw [if_pos hc] at hstep
      have hih := ih (holdStatsNext ls i.now t0) t0 hrest rfl rfl ht0
      simp only [runLoop, hcc, hcr, hstep]
      refine ⟨hih.1, hih.2.1, ?_, ?_, ?_, ?_⟩
      · exact corePreserved_trans hih.2.2.1
          (corePreserved_trans (corePreserved_tick_updates _ _) (corePreserved_wake _ _))
      · rw [hih.2.2.2.1]
        constructor
        · intro _
          exact Or.inr ⟨i, List.mem_cons_self i is, hc.1⟩
        · intro _
          exact Or.inl rfl
      · intro e he
        rcases List.mem_cons.mp he with rfl | hmem
        · exact ⟨rfl, rfl, rfl⟩
        · exact hih.2.2.2.2.1 e hmem
      · constructor
        · intro _
          exact ⟨hc.2, i, List.mem_cons_self i is, hc.1⟩
        · intro _
          exact ⟨statsEffect, List.mem_cons_self _ _, rfl⟩
    · rw [if_neg hc] at hstep
      have hih := ih (holdQuietNext ls i.now t0) t0 hrest rfl rfl ht0
      simp only [runLoop, hcc, hcr, hstep]
      have hsplit : ls.showing_stats = true ∨
          (ls.showing_stats = false ∧ ¬ (1000 ≤ ticksDiff i.now t0)) := by
        cases h : ls.showing_stats
        · exact Or.inr ⟨rfl, fun ha => hc ⟨ha, h⟩⟩
        · exact Or.inl rfl
      have hqss : (holdQuietNext ls i.now t0).showing_stats = ls.showing_stats := rfl
      refine ⟨hih.1, hih.2.1, ?_, ?_, ?_, ?_⟩
      · exact corePreserved_trans hih.2.2.1 (corePreserved_tick_updates _ _)
      · rw [hih.2.2.2.1, hqss]
        rcases hsplit with hs | ⟨hs, hna⟩
        · simp [hs]
        · simp only [hs]
          constructor
          · rintro (h | ⟨j, hj, hjle⟩)
            · exact absurd h (by simp)
            · exact Or.inr ⟨j, List.mem_cons_of_mem i hj, hjle⟩
          · rintro (h | ⟨j, hj, hjle⟩)
            · exact absurd h (by simp)
            · rcases List.mem_cons.mp hj with rfl | hjis
              · exact absurd hjle hna
              · exact Or.inr ⟨j, hjis, hjle⟩
      · intro e he
        rcases List.mem_cons.mp he with rfl | hmem
        · exact ⟨rfl, rfl, rfl⟩
        · exact hih.2.2.2.2.1 e hmem
      · rw [exists_stats_cons_false _ _ rfl, hih.2.2.2.2.2, hqss]
        rcases hsplit with hs | ⟨hs, hna⟩
        · simp [hs]
        · simp only [hs, true_and]
          constructor
          · rintro ⟨j, hj, hjle⟩
            exact ⟨j, List.mem_cons_of_mem i hj, hjle⟩
          · rintro ⟨j, hj, hjle⟩
            rcases List.mem_cons.mp hj with rfl | hjis
            · exact absurd hjle hna
            · exact ⟨j, hjis, hjle⟩


lemma runLoop_append (ls : LoopState) (as bs : List TickIn) :
    runLoop ls (as ++ bs) =
      ((runLoop (runLoop ls as).1 bs).1,
       (runLoop ls as).2 ++ (runLoop (runLoop ls as).1 bs).2) := by
  induction as generalizing ls with
  | nil => simp [runLoop]
  | cons a as ih => simp [runLoop, ih]

/-- One full press-to-release episode on the reset channel alone: falling
edge at `t0`, held samples `his`, rising edge at `tr`; the count channel
reads released throughout. -/
def resetEpisode (ls : LoopState) (t0 : Nat) (r0 : Rand) (his : List TickIn)
    (tr : Nat) (rr : Rand) : LoopState × List TickEffects :=
  runLoop ls (⟨1, 0, t0, r0⟩ :: (his ++ [⟨1, 1, tr, rr⟩]))

/-- C8: over one press of the reset channel (accepted edge at `t0`, held
samples `his`, released at `tr`), no count press is ever dispatched; if some
held sample happens 1000 ms or more after the press then the stats screen is
entered during the hold, the display is restored on release, the reset-tap
handler never runs, and the counter core (count, high score, record flag,
taunt gate) is unchanged; if the press ends and every sample stays under
1000 ms the reset-tap handler runs on release and the stats screen is never
shown; the two outcomes are mutually exclusive. -/
theorem claim8_reset_hold (ls : LoopState) (t0 : Nat) (r0 : Rand)
    (his : List TickIn) (tr : Nat) (rr : Rand)
    (hpr : ls.prev_reset = 1) (hss : ls.showing_stats = false) (ht0 : 0 < t0)
    (hhold : ∀ i ∈ his, i.cc = 1 ∧ i.cr = 0) :
    (∀ e ∈ (resetEpisode ls t0 r0 his tr rr).2, e.count_handler = false) ∧
    ((∃ i ∈ his, 1000 ≤ ticksDiff i.now t0) →
      (∃ e ∈ (resetEpisode ls t0 r0 his tr rr).2, e.stats_shown = true) ∧
      (∃ e ∈ (resetEpisode ls t0 r0 his tr rr).2, e.display_restored = true) ∧
      (∀ e ∈ (resetEpisode ls t0 r0 his tr rr).2, e.reset_handler = false) ∧
      corePreserved (resetEpisode ls t0 r0 his tr rr).1.bc ls.bc ∧
      (resetEpisode ls t0 r0 his tr rr).1.showing_stats = false) ∧
    ((∀ i ∈ his, ticksDiff i.now t0 < 1000) → ticksDiff tr t0 < 1000 →
      (∀ e ∈ (resetEpisode ls t0 r0 his tr rr).2, e.stats_shown = false) ∧
      (∃ e ∈ (resetEpisode ls t0 r0 his tr rr).2, e.reset_handler = true)) ∧
    ¬ ((∃ e ∈ (resetEpisode ls t0 r0 his tr rr).2, e.stats_shown = true) ∧
       (∃ e ∈ (resetEpisode ls t0 r0 his tr rr).2, e.reset_handler = true)) := by
  have hpress := press_tick_eq ls t0 r0 hpr hss
  have hdec1 : resetEpisode ls t0 r0 his tr rr =
      ((runLoop (pressNext ls t0) (his ++ [⟨1, 1, tr, rr⟩])).1,
       noTickEffects :: (runLoop (pressNext ls t0) (his ++ [⟨1, 1, tr, rr⟩])).2) := by
    simp only [resetEpisode, runLoop, hpress]
  have hH := hold_phase his (pressNext ls t0) t0 hhold rfl rfl ht0
  have hMpr : (runLoop (pressNext ls t0) his).1.prev_reset = 0 := hH.1
  have hMrps : (runLoop (pressNext ls t0) his).1.reset_press_start = t0 := hH.2.1
  have hrel := release_tick_eq (runLoop (pressNext ls t0) his).1 tr rr hMpr
  have hdec2 : runLoop (pressNext ls t0) (his ++ [⟨1, 1, tr, rr⟩]) =
      ((tick (runLoop (pressNext ls t0) his).1 1 1 tr rr).1,
       (runLoop (pressNext ls t0) his).2 ++
         [(tick (runLoop (pressNext ls t0) his).1 1 1 tr rr).2]) := by
    rw [runLoop_append]
    simp [runLoop]
  have hssM : (runLoop (pressNext ls t0) his).1.showing_stats = true ↔
      (∃ i ∈ his, 1000 ≤ ticksDiff i.now t0) := by
    rw [hH.2.2.2.1]
    simp [pressNext]
  have hstatsEs : (∃ e ∈ (runLoop (pressNext ls t0) his).2, e.stats_shown = true) ↔
      (∃ i ∈ his, 1000 ≤ ticksDiff i.now t0) := by
    rw [hH.2.2.2.2.2]
    simp [pressNext]
  have hcoreM : corePreserved (runLoop (pressNext ls t0) his).1.bc ls.bc :=
    corePreserved_trans hH.2.2.1 (corePreserved_tick_updates ls.bc t0)
  refine ⟨?_, ?_, ?_, ?_⟩
  · intro e he
    rw [hdec1, hdec2] at he
    simp only [List.mem_cons, List.mem_append, List.mem_singleton, List.not_mem_nil, or_false] at he
    rcases he with rfl | he | rfl
    · rfl
    · exact (hH.2.2.2.2.1 e he).1
    · rw [hrel]
      split_ifs
      · rfl
      · rfl
      · rfl
  · intro hw
    have hMss : (runLoop (pressNext ls t0) his).1.showing_stats = true := hssM.mpr hw
    rw [if_pos hMss] at hrel
    refine ⟨?_, ?_, ?_, ?_, ?_⟩
    · obtain ⟨e, he, hst⟩ := hstatsEs.mpr hw
      rw [hdec1, hdec2]
      exact ⟨e, by simp [List.mem_cons, List.mem_append, he], hst⟩
    · rw [hdec1, hdec2, hrel]
      exact ⟨restoreEffect, by simp [List.mem_cons, List.mem_append], rfl⟩
    · intro e he
      rw [hdec1, hdec2, hrel] at he
      simp only [List.mem_cons, List.mem_append, List.mem_singleton, List.not_mem_nil, or_false] at he
      rcases he with rfl | he | rfl
      · rfl
      · exact (hH.2.2.2.2.1 e he).2.1
      · rfl
    · rw [hdec1, hdec2, hrel]
      exact corePreserved_trans (corePreserved_tick_updates _ _) hcoreM
    · rw [hdec1, hdec2, hrel]
      rfl
  · intro hsh hrt
    have hMss : (runLoop (pressNext ls t0) his).1.showing_stats = false := by
      cases h : (runLoop (pressNext ls t0) his).1.showing_stats
      · rfl
      · obtain ⟨i, hi, hile⟩ := hssM.mp h
        exact absurd hile (by have := hsh i hi; omega)
    rw [if_neg (by rw [hMss]; exact Bool.false_ne_true)] at hrel
    rw [if_pos (by rw [hMrps]; exact hrt)] at hrel
    refine ⟨?_, ?_⟩
    · intro e he
      rw [hdec1, hdec2, hrel] at he
      simp only [List.mem_cons, List.mem_append, List.mem_singleton, List.not_mem_nil, or_false] at he
      rcases he with rfl | he | rfl
      · rfl
      · cases hst : e.stats_shown
        · rfl
        · exact absurd (hstatsEs.mp ⟨e, he, hst⟩)
            (by intro ⟨i, hi, hile⟩; exact absurd hile (by have := hsh i hi; omega))
      · rfl
    · rw [hdec1, hdec2, hrel]
      exact ⟨tapEffect, by simp [List.mem_cons, List.mem_append], rfl⟩
  · rintro ⟨⟨e1, he1, hs1⟩, ⟨e2, he2, hr2⟩⟩
    by_cases hMss : (runLoop (pressNext ls t0) his).1.showing_stats = true
    · rw [if_pos hMss] at hrel
      rw [hdec1, hdec2, hrel] at he2
      simp only [List.mem_cons, List.mem_append, List.mem_singleton, List.not_mem_nil, or_false] at he2
      rcases he2 with rfl | he2 | rfl
      · exact absurd hr2 (by simp [noTickEffects])
      · exact absurd hr2 (by simp [(hH.2.2.2.2.1 e2 he2).2.1])
      · exact absurd hr2 (by simp [restoreEffect, noTickEffects])
    · have hnw : ¬ (∃ i ∈ his, 1000 ≤ ticksDiff i.now t0) := fun hw => hMss (hssM.mpr hw)
      rw [hdec1, hdec2] at he1
      simp only [List.mem_cons, List.mem_append, List.mem_singleton, List.not_mem_nil, or_false] at he1
      rcases he1 with rfl | he1 | rfl
      · exact absurd hs1 (by simp [noTickEffects])
      · exact hnw (hstatsEs.mp ⟨e1, he1, hs1⟩)
      · rw [hrel] at hs1
        rw [if_neg hMss] at hs1
        split_ifs at hs1
        · exact absurd hs1 (by simp [tapEffect, noTickEffects])
        · exact absurd hs1 (by simp [noTickEffects])

/-- C8 witness. -/
theorem claim8_reset_hold_witness :
    (∃ e ∈ (resetEpisode lsFresh 500 rOracle [⟨1, 0, 1600, rOracle⟩] 1700 rOracle).2,
       e.stats_shown = true) ∧
    (∃ e ∈ (resetEpisode lsFresh 500 rOracle [⟨1, 0, 1600, rOracle⟩] 1700 rOracle).2,
       e.display_restored = true) ∧
    corePreserved (resetEpisode lsFresh 500 rOracle [⟨1, 0, 1600, rOracle⟩] 1700 rOracle).1.bc
      lsFresh.bc :=
  have h := claim8_reset_hold lsFresh 500 rOracle [⟨1, 0, 1600, rOracle⟩] 1700 rOracle
    rfl rfl (by decide) (by decide)
  have h2 := h.2.1 (by decide)
  ⟨h2.1, h2.2.1, h2.2.2.2.1⟩

end Pico
